import Mathlib

/-!
Verification of the SPECtate repository: a shallow embedding of
`src/benchmark_run.py` (run orchestration) and `src/validate.py`
(configuration cross-validation), with theorems settling the frozen
claims about the natural-language specification.

Modelling conventions:
* Python values relevant to the code are modelled by `PyVal`
  (strings, integers, lists, string-keyed dictionaries, `None`).
* Python dictionaries are association lists with first-match lookup
  (Python dicts have unique keys, so this is faithful).
* Raised exceptions are modelled by `Except Err`; the `Err` constructors
  distinguish the exception classes raised by the source
  (`InvalidRunConfigurationException`, plain `Exception`, `KeyError`,
  `IndexError`, `TypeError`, `AttributeError`, `ValueError`).
* `uuid4()` is modelled as an injective fresh-identifier supply: a natural
  counter threaded through task generation; each call yields the current
  counter value and advances it.  The uniqueness contract of `uuid4` is
  what this models.
* The source compares the controller type with `is "composite"`
  (string identity).  For interned literal strings this behaves as value
  equality, which is how it is modelled here.
-/

/-- Model of the Python values handled by the repository. -/
inductive PyVal where
  | str : String → PyVal
  | int : Int → PyVal
  | list : List PyVal → PyVal
  | dict : List (String × PyVal) → PyVal
  | none : PyVal

/-- Exception classes raised by the modelled code. -/
inductive Err where
  | config (msg : String)
  | exn (msg : String)
  | keyError
  | indexError
  | typeError
  | attributeError
  | valueError
deriving DecidableEq

/-- Python dictionary lookup on an association list (first match). -/
def pyLookup (k : String) : List (String × PyVal) → Option PyVal
  | [] => Option.none
  | (k', v) :: rest => if k' = k then some v else pyLookup k rest

/-- Python `d[k]`: raises `KeyError` when the key is absent. -/
def dictGet (d : List (String × PyVal)) (k : String) : Except Err PyVal :=
  match pyLookup k d with
  | some v => .ok v
  | Option.none => .error .keyError

/-- Python `d.get(k, default)`. -/
def dictGetD (d : List (String × PyVal)) (k : String) (dflt : PyVal) : PyVal :=
  (pyLookup k d).getD dflt

/-- List concatenation demands a Python list; otherwise `TypeError`. -/
def asList : PyVal → Except Err (List PyVal)
  | .list l => .ok l
  | _ => .error .typeError

/-- Python `str.upper()` (ASCII range, which covers the component
types); structural recursion so that concrete instances evaluate. -/
def pyUpper (s : String) : String := String.mk (s.data.map Char.toUpper)

/-- Calling `.upper()` demands a string; otherwise `AttributeError`. -/
def asStr : PyVal → Except Err String
  | .str s => .ok s
  | _ => .error .attributeError

/-- Python `v is None` (model: structural check for the `None` value). -/
def PyVal.isNone : PyVal → Bool
  | .none => true
  | _ => false

/-- Model of `JvmRunOptions.__init__` from `src/benchmark_run.py`:
normalizes a bare string, a list, a dict (checked to contain a string
`path`, `options` defaulted to `[]`), or `None` into the internal dict. -/
def JvmRunOptions (val : PyVal) : Except Err (List (String × PyVal)) :=
  match val with
  | .str s => .ok [("path", .str s), ("options", .list [])]
  | .list [] => .error .indexError
  | .list (h :: t) => .ok [("path", h), ("options", .list t)]
  | .dict d =>
    match pyLookup "path" d with
    | Option.none => .error (.exn "path not specified for JvmRunOptions")
    | some p =>
      match p with
      | .str _ =>
        match pyLookup "options" d with
        | Option.none => .ok (d ++ [("options", .list [])])
        | some o =>
          match o with
          | .list _ => .ok d
          | _ => .error (.exn "path must be a string")
      | _ => .error (.exn "path must be a string")
  | .none => .ok [("path", .str "java"), ("options", .list [])]
  | _ => .error (.exn "unrecognized type given to JvmRunOptions")

/-- State of a constructed `SpecJBBRun` (the class's relevant fields;
`run_id`, being a logging tag only, is omitted). -/
structure SpecJBBRun where
  jar : String
  props : List (String × PyVal)
  props_file : String
  java : List (String × PyVal)
  controller : List (String × PyVal)
  backends : List (String × PyVal)
  injectors : List (String × PyVal)

/-- Model of `SpecJBBRun.__set_java__`: a dict is stored as-is with no
checks; a string or list is normalized; anything else raises. -/
def SpecJBBRun.set_java (java : PyVal) : Except Err (List (String × PyVal)) :=
  match java with
  | .str s => .ok [("path", .str s), ("options", .list [])]
  | .list [] => .error .indexError
  | .list (h :: t) => .ok [("path", h), ("options", .list t)]
  | .dict d => .ok d
  | _ => .error (.config "java was not a string, list, or dictionary")

/-- The default backends record built by `__set_topology__`. -/
def defaultBackends : List (String × PyVal) :=
  [("count", .int 1), ("type", .str "backend"), ("options", .list []),
   ("jvm_opts", .list [])]

/-- The default injectors record built by `__set_topology__`. -/
def defaultInjectors : List (String × PyVal) :=
  [("count", .int 1), ("type", .str "txinjector"), ("options", .list []),
   ("jvm_opts", .list [])]

/-- The default controller record of `__set_topology__`'s dead branch. -/
def defaultController : List (String × PyVal) :=
  [("type", .str "composite"), ("options", .list []), ("jvm_opts", .list [])]

/-- Model of the `backends` normalization in `__set_topology__`. -/
def SpecJBBRun.set_backends (backends : PyVal) :
    Except Err (List (String × PyVal)) :=
  match backends with
  | .int n => .ok [("count", .int n), ("type", .str "backend"),
                   ("options", .list []), ("jvm_opts", .list [])]
  | .dict d => .ok d
  | .none => .ok defaultBackends
  | _ => .error (.config "backends was not an integer or dict")

/-- Model of the `injectors` normalization in `__set_topology__`. -/
def SpecJBBRun.set_injectors (injectors : PyVal) :
    Except Err (List (String × PyVal)) :=
  match injectors with
  | .int n => .ok [("count", .int n), ("type", .str "txinjector"),
                   ("options", .list []), ("jvm_opts", .list [])]
  | .dict d => .ok d
  | .none => .ok defaultInjectors
  | _ => .error (.config "injectors was not an integer or dict")

/-- Model of `SpecJBBRun.__set_topology__`: rejects an all-absent topology,
then a non-dict controller, then a controller without `type`; the source's
`if controller is None` default branch follows the dict check and is kept
here verbatim (it tests `None`-ness of a value already known to be a dict,
so it can never fire). -/
def SpecJBBRun.set_topology (controller backends injectors : PyVal) :
    Except Err (List (String × PyVal) × List (String × PyVal) ×
                List (String × PyVal)) :=
  match controller, backends, injectors with
  | .none, .none, .none => .error (.config "no topology specified")
  | c, b, i =>
    match c with
    | .dict cd =>
      match pyLookup "type" cd with
      | Option.none =>
        .error (.config "type was not specified in controller")
      | some _ =>
        let ctrl := if (PyVal.dict cd).isNone then defaultController else cd
        match SpecJBBRun.set_backends b with
        | .error e => .error e
        | .ok bd =>
          match SpecJBBRun.set_injectors i with
          | .error e => .error e
          | .ok idd => .ok (ctrl, bd, idd)
    | _ => .error (.config "controller was not a dict")

/-- Model of `SpecJBBRun.__init__`: rejects `java`/`jar` absent or `jar`
non-string, then sets the java record and the topology. -/
def SpecJBBRun.init (controller backends injectors java jar : PyVal)
    (props : List (String × PyVal)) (props_file : String) :
    Except Err SpecJBBRun :=
  match java, jar with
  | .none, _ => .error (.config "Run was invalid")
  | _, .none => .error (.config "Run was invalid")
  | j, .str jarS =>
    match SpecJBBRun.set_java j with
    | .error e => .error e
    | .ok jd =>
      match SpecJBBRun.set_topology controller backends injectors with
      | .error e => .error e
      | .ok (c, b, i) => .ok ⟨jarS, props, props_file, jd, c, b, i⟩
  | _, _ => .error (.config "Run was invalid")

/-- Model of `SpecJBBRun._full_options`: builds the argv
`[java.path, "-jar", jar] ++ java.options ++ jvm_opts
 ++ ["-m", type.upper()] ++ options ++ ["-p", props_file]`,
with Python's lookup/`.get` defaulting and exception behaviour. -/
def SpecJBBRun.full_options (r : SpecJBBRun)
    (options_dict : List (String × PyVal)) : Except Err (List PyVal) :=
  match dictGet r.java "path" with
  | .error e => .error e
  | .ok p =>
    match dictGet r.java "options" with
    | .error e => .error e
    | .ok joV =>
      match asList joV with
      | .error e => .error e
      | .ok jo =>
        match asList (dictGetD options_dict "jvm_opts" (.list [])) with
        | .error e => .error e
        | .ok jv =>
          match dictGet options_dict "type" with
          | .error e => .error e
          | .ok tyV =>
            match asStr tyV with
            | .error e => .error e
            | .ok ty =>
              match asList (dictGetD options_dict "options" (.list [])) with
              | .error e => .error e
              | .ok oo =>
                .ok ([p, .str "-jar", .str r.jar] ++ jo ++ jv
                     ++ [.str "-m", .str (pyUpper ty)] ++ oo
                     ++ [.str "-p", .str r.props_file])

/-- Model of `SpecJBBRun.controller_run_args`. -/
def SpecJBBRun.controller_run_args (r : SpecJBBRun) : Except Err (List PyVal) :=
  r.full_options r.controller

/-- Model of `SpecJBBRun.backend_run_args`. -/
def SpecJBBRun.backend_run_args (r : SpecJBBRun) : Except Err (List PyVal) :=
  r.full_options r.backends

/-- Model of `SpecJBBRun.injector_run_args`. -/
def SpecJBBRun.injector_run_args (r : SpecJBBRun) : Except Err (List PyVal) :=
  r.full_options r.injectors

/-- A `TaskRunner` invocation: the argv it is constructed with. -/
structure TaskR where
  args : List PyVal

/-- The `-G=<group-id>` flag appended during task generation. -/
def gFlag (gid : Nat) : String := "-G=" ++ toString gid

/-- The `-J=<jvm-id>` flag appended during task generation. -/
def jFlag (jid : Nat) : String := "-J=" ++ toString jid

/-- The source compares `self.controller["type"] is "composite"`; a
non-string value is never identical to the string literal. -/
def isComposite : PyVal → Bool
  | .str s => s = "composite"
  | _ => false

/-- Model of the inner loop of `_generate_tasks`: for each of `n`
injector iterations draw a fresh JVM identifier and yield one injector
task tagged with the enclosing group identifier. Returns the tasks and
the advanced identifier counter. -/
def injectorLoop (r : SpecJBBRun) (gid : Nat) :
    Nat → Nat → Except Err (List TaskR × Nat)
  | 0, s => .ok ([], s)
  | n + 1, s =>
    match r.injector_run_args with
    | .error e => .error e
    | .ok iargs =>
      match injectorLoop r gid n (s + 1) with
      | .error e => .error e
      | .ok (rest, s') =>
        .ok (⟨iargs ++ [.str (gFlag gid), .str (jFlag s)]⟩ :: rest, s')

/-- Model of the outer loop of `_generate_tasks`: for each of `n` backend
iterations draw a fresh group identifier and a fresh backend JVM
identifier, yield one backend task, then the injector tasks of its group. -/
def backendLoop (r : SpecJBBRun) (icount : Nat) :
    Nat → Nat → Except Err (List TaskR × Nat)
  | 0, s => .ok ([], s)
  | n + 1, s =>
    match r.backend_run_args with
    | .error e => .error e
    | .ok bargs =>
      match injectorLoop r s icount (s + 2) with
      | .error e => .error e
      | .ok (inj, s') =>
        match backendLoop r icount n s' with
        | .error e => .error e
        | .ok (rest, s'') =>
          .ok (⟨bargs ++ [.str (gFlag s), .str (jFlag (s + 1))]⟩ ::
               (inj ++ rest), s'')

/-- Model of `SpecJBBRun._generate_tasks` (the generator, fully consumed):
returns no tasks for a composite controller; otherwise reads both counts
(`KeyError` when absent, `TypeError` when not integers — `range` demands
an integer) and produces the backend/injector tasks. The identifier
counter `s` models the `uuid4` fresh-identifier supply. -/
def SpecJBBRun.generate_tasks (r : SpecJBBRun) (s : Nat) :
    Except Err (List TaskR) :=
  match pyLookup "type" r.controller with
  | Option.none => .error .keyError
  | some cty =>
    if isComposite cty then .ok []
    else
      match pyLookup "count" r.backends with
      | Option.none => .error .keyError
      | some bc =>
        match pyLookup "count" r.injectors with
        | Option.none => .error .keyError
        | some ic =>
          match bc, ic with
          | .int B, .int I =>
            match backendLoop r I.toNat B.toNat s with
            | .error e => .error e
            | .ok (tasks, _) => .ok tasks
          | _, _ => .error .typeError

/-- Observable actions of `SpecJBBRun.run`, in order of occurrence. -/
inductive Event where
  | writeProps (path : String)
      (sections : List (String × List (String × PyVal)))
  | runSync (args : List PyVal)
  | start (args : List PyVal)
  | createPool (size : Nat)
  | runTask (t : TaskR)
  | stop (args : List PyVal)

/-- Whether an event is the properties-file write. -/
def Event.isWrite : Event → Bool
  | .writeProps _ _ => true
  | _ => false

/-- Model of `SpecJBBRun.run` as the trace of its observable actions:
write the properties file (one section literally named `SPECtate`,
holding the run's `props`), build the controller invocation, then either
run it synchronously (composite) or start it, expand the task list,
create a pool sized to the task count (`Pool(0)` raises `ValueError`),
run every task, and stop the controller. -/
def SpecJBBRun.run (r : SpecJBBRun) (s : Nat) : Except Err (List Event) :=
  let w := Event.writeProps r.props_file [("SPECtate", r.props)]
  match r.controller_run_args with
  | .error e => .error e
  | .ok cargs =>
    match pyLookup "type" r.controller with
    | Option.none => .error .keyError
    | some cty =>
      if isComposite cty then .ok [w, .runSync cargs]
      else
        match r.generate_tasks s with
        | .error e => .error e
        | .ok tasks =>
          if tasks.length = 0 then .error .valueError
          else .ok ([w, .start cargs, .createPool tasks.length]
                    ++ tasks.map Event.runTask ++ [.stop cargs])

/-- Task list as the specification describes it: for each backend a fresh
group identifier `s` and fresh JVM identifier `s + 1` yielding one backend
task, immediately followed by the injector tasks of that group, each with
a fresh JVM identifier `s + 2 + j` and the same group identifier. -/
def genTasksSpec (bargs iargs : List PyVal) (i : Nat) :
    Nat → Nat → List TaskR
  | 0, _ => []
  | b + 1, s =>
    ⟨bargs ++ [.str (gFlag s), .str (jFlag (s + 1))]⟩ ::
    (((List.range i).map fun j =>
        (⟨iargs ++ [.str (gFlag s), .str (jFlag (s + 2 + j))]⟩ : TaskR)) ++
     genTasksSpec bargs iargs i b (s + i + 2))

/-- The JVM identifiers drawn during task generation, in order. -/
def jvmIds (i : Nat) : Nat → Nat → List Nat
  | 0, _ => []
  | b + 1, s =>
    (s + 1) :: (((List.range i).map fun j => s + 2 + j) ++
                jvmIds i b (s + i + 2))

/-- The `-J=` flag of a generated task (always its last argument). -/
def taskJvmArg (t : TaskR) : Option PyVal := t.args.getLast?

/-- Model of a structurally validated template (`TemplateSchema` of
`src/validate.py`), defaults already injected by the structural phase;
the optional mappings stay optional. -/
structure Template where
  args : List String
  run_type : String
  javaPath : String
  jarPath : String
  default_props : Option (List (String × PyVal))
  annotations : Option (List (String × String))
  translations : Option (List (String × String))
  typesMap : Option (List (String × String))

/-- Model of a structurally validated run entry (`RunConfigSchema`). -/
structure RunConfig where
  template_type : String
  args : List (String × PyVal)
  props_extra : Option (List (String × String))

/-- Model of a structurally validated document (`SpectateConfig`). -/
structure SpectateDoc where
  TemplateData : List (String × Template)
  RunList : List RunConfig

/-- Lookup of a template by name, as `d["TemplateData"][name]`
(`KeyError` when absent). -/
def lookupTemplate (td : List (String × Template)) (name : String) :
    Option Template :=
  match td with
  | [] => Option.none
  | (k, t) :: rest => if k = name then some t else lookupTemplate rest name

/-- Python `key in mapping` on an association list. -/
def keyMem (a : String) (l : List (String × PyVal)) : Bool :=
  l.any fun kv => kv.1 = a

/-- The loop `for arg in t["args"]` of `validate`: an arg not supplied by
the run must be a key of `t["default_props"]`; the subscript raises
`KeyError` when the template has no `default_props` mapping at all. -/
def checkDefaults (t : Template) (runArgs : List (String × PyVal)) :
    List String → Except Err Bool
  | [] => .ok true
  | a :: rest =>
    if keyMem a runArgs then checkDefaults t runArgs rest
    else
      match t.default_props with
      | Option.none => .error .keyError
      | some dp =>
        if keyMem a dp then checkDefaults t runArgs rest else .ok false

/-- The per-run checks of `validate`: template lookup, rule 1 (every
supplied arg is declared), then rule 2 (`checkDefaults`). -/
def checkRun (d : SpectateDoc) (run : RunConfig) : Except Err Bool :=
  match lookupTemplate d.TemplateData run.template_type with
  | Option.none => .error .keyError
  | some t =>
    if run.args.all (fun kv => decide (kv.1 ∈ t.args)) then
      checkDefaults t run.args t.args
    else .ok false

/-- The loop `for run in d["RunList"]` of `validate`, short-circuiting on
the first failing run (Python `return None`). -/
def checkRuns (d : SpectateDoc) : List RunConfig → Except Err Bool
  | [] => .ok true
  | r :: rest =>
    match checkRun d r with
    | .error e => .error e
    | .ok true => checkRuns d rest
    | .ok false => .ok false

/-- The per-template checks of `validate`: every `translations` key and
every `annotations` key must be a declared arg. -/
def checkTemplate (t : Template) : Bool :=
  (match t.translations with
   | Option.none => true
   | some tr => tr.all fun kv => decide (kv.1 ∈ t.args)) &&
  (match t.annotations with
   | Option.none => true
   | some an => an.all fun kv => decide (kv.1 ∈ t.args))

/-- Model of `validate` from `src/validate.py`, after the structural
phase (the external schema engine) has produced the typed document `d`:
runs the cross-referential rules; `.ok (some d)` models returning the
document, `.ok none` models `return None`, `.error` a raised exception. -/
def validate (d : SpectateDoc) : Except Err (Option SpectateDoc) :=
  match checkRuns d d.RunList with
  | .error e => .error e
  | .ok false => .ok Option.none
  | .ok true =>
    if d.TemplateData.all (fun nt => checkTemplate nt.2) then .ok (some d)
    else .ok Option.none

/-- C1: for every run and every component role options record,
`full_options` returns exactly
`[java.path, "-jar", jar] ++ java.options ++ jvm_opts ++
 ["-m", uppercase type] ++ options ++ ["-p", props_file]`, and the very
same assembly is used for the controller, the backends and the injectors. -/
theorem full_options_formula (r : SpecJBBRun) (od : List (String × PyVal))
    (jpath : String) (jopts jvm opts : List PyVal) (ty : String)
    (hp : pyLookup "path" r.java = some (.str jpath))
    (ho : pyLookup "options" r.java = some (.list jopts))
    (hj : pyLookup "jvm_opts" od = some (.list jvm))
    (ht : pyLookup "type" od = some (.str ty))
    (hoo : pyLookup "options" od = some (.list opts)) :
    r.full_options od =
      .ok ([.str jpath, .str "-jar", .str r.jar] ++ jopts ++ jvm
           ++ [.str "-m", .str (pyUpper ty)] ++ opts
           ++ [.str "-p", .str r.props_file])
    ∧ r.controller_run_args = r.full_options r.controller
    ∧ r.backend_run_args = r.full_options r.backends
    ∧ r.injector_run_args = r.full_options r.injectors := by
  refine ⟨?_, rfl, rfl, rfl⟩
  simp [SpecJBBRun.full_options, dictGet, dictGetD, asList, asStr,
        hp, ho, hj, ht, hoo]

/-- Witness for C1: the concrete run of the claim yields exactly
`["java", "-jar", "x.jar", "-Xmx1g", "-Xms1g", "-m", "BACKEND",
  "-Dfoo=bar", "-p", "p.props"]`. -/
theorem full_options_formula_witness :
    pyLookup "path"
      [("path", PyVal.str "java"),
       ("options", PyVal.list [PyVal.str "-Xmx1g"])] =
      some (PyVal.str "java")
    ∧ (SpecJBBRun.mk "x.jar" [] "p.props"
        [("path", PyVal.str "java"),
         ("options", PyVal.list [PyVal.str "-Xmx1g"])]
        [("type", PyVal.str "composite")] [] []).full_options
        [("type", PyVal.str "backend"),
         ("options", PyVal.list [PyVal.str "-Dfoo=bar"]),
         ("jvm_opts", PyVal.list [PyVal.str "-Xms1g"])] =
      .ok [PyVal.str "java", PyVal.str "-jar", PyVal.str "x.jar",
           PyVal.str "-Xmx1g", PyVal.str "-Xms1g", PyVal.str "-m",
           PyVal.str "BACKEND", PyVal.str "-Dfoo=bar", PyVal.str "-p",
           PyVal.str "p.props"] := by
  constructor
  · rfl
  · exact (full_options_formula
      (SpecJBBRun.mk "x.jar" [] "p.props"
        [("path", PyVal.str "java"),
         ("options", PyVal.list [PyVal.str "-Xmx1g"])]
        [("type", PyVal.str "composite")] [] [])
      [("type", PyVal.str "backend"),
       ("options", PyVal.list [PyVal.str "-Dfoo=bar"]),
       ("jvm_opts", PyVal.list [PyVal.str "-Xms1g"])]
      "java" [PyVal.str "-Xmx1g"] [PyVal.str "-Xms1g"]
      [PyVal.str "-Dfoo=bar"] "backend" rfl rfl rfl rfl rfl).1

lemma pyLookup_append_left (k : String) (d e : List (String × PyVal))
    (v : PyVal) (h : pyLookup k d = some v) :
    pyLookup k (d ++ e) = some v := by
  induction d with
  | nil => simp [pyLookup] at h
  | cons kv rest ih =>
    obtain ⟨k', v'⟩ := kv
    by_cases hk : k' = k
    · simp [pyLookup, hk] at h ⊢
      exact h
    · simp [pyLookup, hk] at h ⊢
      exact ih h

lemma set_topology_controller_none (b i : PyVal) :
    ∃ msg, SpecJBBRun.set_topology PyVal.none b i =
      Except.error (.config msg) := by
  cases b <;> cases i <;> exact ⟨_, rfl⟩

/-- C6 (confirmed): with `controller` absent the topology setup always
raises a `ConfigurationError` ("no topology specified" when everything is
absent, otherwise "controller was not a dict"), construction therefore
never succeeds, and whenever topology setup does succeed the stored
controller is the caller's dict verbatim — so the dead default-controller
branch never supplies a value. -/
theorem controller_absent_rejected :
    (∀ b i, ∃ msg, SpecJBBRun.set_topology PyVal.none b i =
        Except.error (.config msg))
    ∧ (∀ c b i out, SpecJBBRun.set_topology c b i = .ok out →
        c = PyVal.dict out.1)
    ∧ (∀ b i java jar props pf st,
        SpecJBBRun.init PyVal.none b i java jar props pf = .ok st → False) := by
  refine ⟨set_topology_controller_none, ?_, ?_⟩
  · intro c b i out h
    unfold SpecJBBRun.set_topology at h
    split at h
    · exact absurd h (by simp)
    · split at h
      · split at h
        · exact absurd h (by simp)
        · split at h
          · rename_i hno
            simp [PyVal.isNone] at hno
          · split at h
            · exact absurd h (by simp)
            · split at h
              · exact absurd h (by simp)
              · injection h with h
                subst h
                rfl
      · exact absurd h (by simp)
  · intro b i java jar props pf st h
    obtain ⟨msg, he⟩ := set_topology_controller_none b i
    unfold SpecJBBRun.init at h
    rw [he] at h
    split at h
    · exact absurd h (by simp)
    · exact absurd h (by simp)
    · split at h
      · exact absurd h (by simp)
      · exact absurd h (by simp)
    · exact absurd h (by simp)

/-- Witness for C6: supplying backends and injectors but no controller is
rejected, and a successful topology setup stores the given controller. -/
theorem controller_absent_rejected_witness :
    (∃ msg, SpecJBBRun.set_topology PyVal.none (PyVal.int 2) (PyVal.int 3) =
      Except.error (.config msg))
    ∧ PyVal.dict [("type", PyVal.str "multi")] =
        PyVal.dict ([("type", PyVal.str "multi")] : List (String × PyVal)) := by
  refine ⟨controller_absent_rejected.1 _ _, ?_⟩
  have h := controller_absent_rejected.2.1
    (PyVal.dict [("type", PyVal.str "multi")]) PyVal.none PyVal.none
    ([("type", PyVal.str "multi")], defaultBackends, defaultInjectors) rfl
  exact h

/-- Counterexample for C5: constructing a run with the empty string as
`jar` succeeds (the source only rejects `None` or a non-string), so the
stored `jar` field is the empty string — the claim that construction with
an empty `jar` raises a `ConfigurationError` is false. -/
theorem jar_empty_string_accepted :
    SpecJBBRun.init (PyVal.dict [("type", PyVal.str "composite")])
      PyVal.none PyVal.none (PyVal.str "java") (PyVal.str "") []
      "specjbb2015.props" =
    .ok ⟨"", [], "specjbb2015.props",
         [("path", PyVal.str "java"), ("options", PyVal.list [])],
         [("type", PyVal.str "composite")],
         defaultBackends, defaultInjectors⟩ := rfl

/-- C5 as amended: the stored `jar` field is always a string — `jar`
absent or non-string is rejected with a `ConfigurationError` — but it may
be the empty string (non-emptiness is never checked). -/
theorem jar_string_invariant :
    (∀ c b i java props pf,
      SpecJBBRun.init c b i java PyVal.none props pf =
        Except.error (.config "Run was invalid"))
    ∧ (∀ c b i java jar props pf, (∀ s, jar ≠ PyVal.str s) →
        SpecJBBRun.init c b i java jar props pf =
          Except.error (.config "Run was invalid"))
    ∧ (∀ c b i java jar props pf st,
        SpecJBBRun.init c b i java jar props pf = .ok st →
        jar = PyVal.str st.jar) := by
  refine ⟨?_, ?_, ?_⟩
  · intro c b i java props pf
    cases java <;> rfl
  · intro c b i java jar props pf hns
    cases jar with
    | str s => exact absurd rfl (hns s)
    | int n => cases java <;> rfl
    | list l => cases java <;> rfl
    | dict d => cases java <;> rfl
    | none => cases java <;> rfl
  · intro c b i java jar props pf st h
    unfold SpecJBBRun.init at h
    split at h
    · exact absurd h (by simp)
    · exact absurd h (by simp)
    · split at h
      · exact absurd h (by simp)
      · split at h
        · exact absurd h (by simp)
        · injection h with h
          subst h
          rfl
    · exact absurd h (by simp)

/-- Witness for C5 (amended): a non-string `jar` is rejected, and a
successful construction stores the `jar` string. -/
theorem jar_string_invariant_witness :
    SpecJBBRun.init (PyVal.dict [("type", PyVal.str "composite")])
      PyVal.none PyVal.none (PyVal.str "java") (PyVal.int 7) []
      "specjbb2015.props" = Except.error (.config "Run was invalid")
    ∧ PyVal.str "x.jar" =
        PyVal.str (SpecJBBRun.mk "x.jar" [] "specjbb2015.props"
          [("path", PyVal.str "java"), ("options", PyVal.list [])]
          [("type", PyVal.str "composite")] defaultBackends
          defaultInjectors).jar := by
  constructor
  · exact jar_string_invariant.2.1 _ _ _ _ _ [] "specjbb2015.props"
      (by intro s hs; cases hs)
  · exact jar_string_invariant.2.2
      (PyVal.dict [("type", PyVal.str "composite")]) PyVal.none PyVal.none
      (PyVal.str "java") (PyVal.str "x.jar") [] "specjbb2015.props" _ rfl

/-- Counterexample for C9: the bare path string may be empty —
`JvmRunOptions("")` succeeds and normalizes to a record whose `path`
field is the empty string, so the invariant "path is always a non-empty
string after normalization" is false. -/
theorem jvm_options_empty_path_accepted :
    JvmRunOptions (PyVal.str "") =
      .ok [("path", PyVal.str ""), ("options", PyVal.list [])] := rfl

/-- C9 as amended: every accepted input shape normalizes to a record that
always carries a `path` key holding the given value verbatim (the
explicit-mapping shape additionally checks that `path` is a string), but
the path may be the empty string — non-emptiness is never enforced. -/
theorem jvm_options_path_normalization :
    (∀ s, JvmRunOptions (PyVal.str s) =
        .ok [("path", PyVal.str s), ("options", PyVal.list [])])
    ∧ (∀ h t, JvmRunOptions (PyVal.list (h :: t)) =
        .ok [("path", h), ("options", PyVal.list t)])
    ∧ JvmRunOptions PyVal.none =
        .ok [("path", PyVal.str "java"), ("options", PyVal.list [])]
    ∧ (∀ d res, JvmRunOptions (PyVal.dict d) = .ok res →
        ∃ s, pyLookup "path" res = some (PyVal.str s)) := by
  refine ⟨fun s => rfl, fun h t => rfl, rfl, ?_⟩
  intro d res h
  simp only [JvmRunOptions] at h
  split at h
  · exact absurd h (by simp)
  · rename_i p hp
    split at h
    · rename_i s
      split at h
      · injection h with h
        subst h
        exact ⟨s, pyLookup_append_left _ _ _ _ hp⟩
      · split at h
        · injection h with h
          subst h
          exact ⟨s, hp⟩
        · exact absurd h (by simp)
    · exact absurd h (by simp)

/-- Witness for C9 (amended): a concrete mapping normalizes to a record
whose `path` key holds a string. -/
theorem jvm_options_path_normalization_witness :
    JvmRunOptions (PyVal.dict [("path", PyVal.str "/usr/bin/java")]) =
      .ok [("path", PyVal.str "/usr/bin/java"),
           ("options", PyVal.list [])]
    ∧ ∃ s, pyLookup "path"
        [("path", PyVal.str "/usr/bin/java"), ("options", PyVal.list [])] =
        some (PyVal.str s) := by
  refine ⟨rfl, ?_⟩
  exact jvm_options_path_normalization.2.2.2
    [("path", PyVal.str "/usr/bin/java")]
    [("path", PyVal.str "/usr/bin/java"), ("options", PyVal.list [])] rfl

/-- C10 (confirmed): construction with `java` given as any dictionary
(and otherwise valid arguments) succeeds and stores that dictionary
verbatim as the run's java record, with no check of its contents; a
failure caused by a missing `path` (or `options`) key only surfaces when
`full_options` later reads the keys, as a `KeyError`. -/
theorem java_dict_stored_unchecked :
    (∀ dj cd props pf jarS ty, pyLookup "type" cd = some ty →
      SpecJBBRun.init (PyVal.dict cd) PyVal.none PyVal.none
        (PyVal.dict dj) (PyVal.str jarS) props pf =
        .ok ⟨jarS, props, pf, dj, cd, defaultBackends, defaultInjectors⟩)
    ∧ (∀ (r : SpecJBBRun) od, pyLookup "path" r.java = Option.none →
        r.full_options od = .error .keyError) := by
  constructor
  · intro dj cd props pf jarS ty hty
    unfold SpecJBBRun.init SpecJBBRun.set_java SpecJBBRun.set_topology
    simp [hty, PyVal.isNone, SpecJBBRun.set_backends,
          SpecJBBRun.set_injectors]
  · intro r od h
    unfold SpecJBBRun.full_options
    simp [dictGet, h]

/-- Witness for C10: a java dictionary with no `path` and no `options`
key is accepted and stored as-is, and the deferred failure appears as a
`KeyError` when `full_options` runs. -/
theorem java_dict_stored_unchecked_witness :
    SpecJBBRun.init (PyVal.dict [("type", PyVal.str "multi")])
      PyVal.none PyVal.none (PyVal.dict [("foo", PyVal.int 1)])
      (PyVal.str "specjbb2015.jar") [] "specjbb2015.props" =
      .ok ⟨"specjbb2015.jar", [], "specjbb2015.props",
           [("foo", PyVal.int 1)], [("type", PyVal.str "multi")],
           defaultBackends, defaultInjectors⟩
    ∧ (SpecJBBRun.mk "specjbb2015.jar" [] "specjbb2015.props"
        [("foo", PyVal.int 1)] [("type", PyVal.str "multi")]
        defaultBackends defaultInjectors).full_options
        [("type", PyVal.str "backend")] = .error .keyError := by
  constructor
  · exact java_dict_stored_unchecked.1 [("foo", PyVal.int 1)]
      [("type", PyVal.str "multi")] [] "specjbb2015.props"
      "specjbb2015.jar" (PyVal.str "multi") rfl
  · exact java_dict_stored_unchecked.2
      (SpecJBBRun.mk "specjbb2015.jar" [] "specjbb2015.props"
        [("foo", PyVal.int 1)] [("type", PyVal.str "multi")]
        defaultBackends defaultInjectors)
      [("type", PyVal.str "backend")] rfl

lemma checkDefaults_ok (t : Template) (runArgs : List (String × PyVal))
    (largs : List String)
    (h : ∀ a ∈ largs, keyMem a runArgs = false →
      ∃ dp, t.default_props = some dp ∧ keyMem a dp = true) :
    checkDefaults t runArgs largs = .ok true := by
  induction largs with
  | nil => rfl
  | cons a rest ih =>
    unfold checkDefaults
    by_cases hk : keyMem a runArgs = true
    · rw [if_pos hk]
      exact ih fun x hx => h x (List.mem_cons_of_mem _ hx)
    · rw [if_neg hk]
      obtain ⟨dp, hdp, hmem⟩ :=
        h a (List.mem_cons_self _ _) (Bool.not_eq_true _ ▸ hk)
      rw [hdp]
      show (if keyMem a dp = true then checkDefaults t runArgs rest
            else Except.ok false) = Except.ok true
      rw [if_pos hmem]
      exact ih fun x hx => h x (List.mem_cons_of_mem _ hx)

lemma checkTemplate_ok (t : Template)
    (htr : ∀ tr, t.translations = some tr → ∀ kv ∈ tr, kv.1 ∈ t.args)
    (han : ∀ an, t.annotations = some an → ∀ kv ∈ an, kv.1 ∈ t.args) :
    checkTemplate t = true := by
  unfold checkTemplate
  have h1 : (match t.translations with
      | Option.none => true
      | some tr => tr.all fun kv => decide (kv.1 ∈ t.args)) = true := by
    cases he : t.translations with
    | none => rfl
    | some tr =>
      simp only [List.all_eq_true, decide_eq_true_eq]
      exact htr tr he
  have h2 : (match t.annotations with
      | Option.none => true
      | some an => an.all fun kv => decide (kv.1 ∈ t.args)) = true := by
    cases he : t.annotations with
    | none => rfl
    | some an =>
      simp only [List.all_eq_true, decide_eq_true_eq]
      exact han an he
  rw [h1, h2]
  rfl

lemma checkRuns_ok (d : SpectateDoc) (l : List RunConfig)
    (h : ∀ run ∈ l, ∃ t,
      lookupTemplate d.TemplateData run.template_type = some t ∧
      (∀ kv ∈ run.args, kv.1 ∈ t.args) ∧
      (∀ a ∈ t.args, keyMem a run.args = false →
        ∃ dp, t.default_props = some dp ∧ keyMem a dp = true)) :
    checkRuns d l = .ok true := by
  induction l with
  | nil => rfl
  | cons r rest ih =>
    obtain ⟨t, hl, hargs, hdp⟩ := h r (List.mem_cons_self _ _)
    have hcr : checkRun d r = .ok true := by
      have hall : (r.args.all fun kv => decide (kv.1 ∈ t.args)) = true := by
        simp only [List.all_eq_true, decide_eq_true_eq]
        exact hargs
      unfold checkRun
      rw [hl]
      show (if (r.args.all fun kv => decide (kv.1 ∈ t.args)) = true then
              checkDefaults t r.args t.args
            else Except.ok false) = Except.ok true
      rw [if_pos hall]
      exact checkDefaults_ok t r.args t.args hdp
    unfold checkRuns
    rw [hcr]
    exact ih fun x hx => h x (List.mem_cons_of_mem _ hx)

/-- C8 (confirmed): when every run's supplied args are declared by its
referenced template, every declared-but-unsupplied arg has a key in that
template's `default_props`, and every `translations` and `annotations`
key of every template is a declared arg, `validate` returns the
(defaulted, structurally validated) document itself. -/
theorem validate_success (d : SpectateDoc)
    (h1 : ∀ run ∈ d.RunList, ∃ t,
      lookupTemplate d.TemplateData run.template_type = some t ∧
      (∀ kv ∈ run.args, kv.1 ∈ t.args) ∧
      (∀ a ∈ t.args, keyMem a run.args = false →
        ∃ dp, t.default_props = some dp ∧ keyMem a dp = true))
    (h2 : ∀ nt ∈ d.TemplateData,
      (∀ tr, nt.2.translations = some tr → ∀ kv ∈ tr, kv.1 ∈ nt.2.args) ∧
      (∀ an, nt.2.annotations = some an → ∀ kv ∈ an, kv.1 ∈ nt.2.args)) :
    validate d = .ok (some d) := by
  unfold validate
  rw [checkRuns_ok d d.RunList h1]
  have hall : (d.TemplateData.all fun nt => checkTemplate nt.2) = true := by
    simp only [List.all_eq_true]
    intro nt hnt
    exact checkTemplate_ok nt.2 (h2 nt hnt).1 (h2 nt hnt).2
  rw [if_pos hall]

/-- Witness for C8: the claim's concrete document — template `T` with
`args = ["a","b"]` and `default_props = {"b": 1}`, and one run supplying
`args = {"a": 5}` — validates to itself. -/
theorem validate_success_witness :
    validate ⟨[("T", ⟨["a", "b"], "composite", "java", "specjbb2015.jar",
        some [("b", PyVal.int 1)], Option.none, Option.none, Option.none⟩)],
      [⟨"T", [("a", PyVal.int 5)], Option.none⟩]⟩ =
    .ok (some ⟨[("T", ⟨["a", "b"], "composite", "java", "specjbb2015.jar",
        some [("b", PyVal.int 1)], Option.none, Option.none, Option.none⟩)],
      [⟨"T", [("a", PyVal.int 5)], Option.none⟩]⟩) := by
  apply validate_success
  · intro run hr
    simp only [List.mem_singleton] at hr
    subst hr
    refine ⟨⟨["a", "b"], "composite", "java", "specjbb2015.jar",
      some [("b", PyVal.int 1)], Option.none, Option.none, Option.none⟩,
      rfl, by decide, ?_⟩
    intro a ha hk
    simp only [List.mem_cons, List.mem_singleton] at ha
    rcases ha with rfl | ha
    · simp [keyMem] at hk
    · rcases ha with rfl | ha
      · exact ⟨[("b", PyVal.int 1)], rfl, rfl⟩
      · simp at ha
  · intro nt hnt
    simp only [List.mem_singleton] at hnt
    subst hnt
    exact ⟨(fun tr htr => nomatch htr), (fun an han => nomatch han)⟩

/-- C3: the source raises instead of returning the absent result when the
referenced template has no `default_props` mapping at all — evaluating
`validate` on a document whose template declares `args = ["a"]`, has no
`default_props`, and whose run supplies no args, raises `KeyError`
(`t["default_props"]` on line 61 of `src/validate.py`); with the mapping
present (even empty) the same document correctly yields the absent
result. -/
theorem validate_missing_default_props_raises :
    validate ⟨[("T", ⟨["a"], "composite", "java", "specjbb2015.jar",
        Option.none, Option.none, Option.none, Option.none⟩)],
      [⟨"T", [], Option.none⟩]⟩ = .error Err.keyError
    ∧ validate ⟨[("T", ⟨["a"], "composite", "java", "specjbb2015.jar",
        some [], Option.none, Option.none, Option.none⟩)],
      [⟨"T", [], Option.none⟩]⟩ = .ok Option.none := ⟨rfl, rfl⟩

/-- C4 (confirmed): when the controller's type is `composite`, task
generation produces zero tasks and `run()` writes the properties file,
runs exactly one process (the controller) synchronously, creates no
worker pool, and returns once that process exits. -/
theorem composite_run_single_process (r : SpecJBBRun) (s : Nat)
    (cargs : List PyVal)
    (hc : pyLookup "type" r.controller = some (PyVal.str "composite"))
    (ha : r.controller_run_args = .ok cargs) :
    r.generate_tasks s = .ok []
    ∧ r.run s = .ok [Event.writeProps r.props_file [("SPECtate", r.props)],
                     Event.runSync cargs] := by
  constructor
  · unfold SpecJBBRun.generate_tasks
    rw [hc]
    simp [isComposite]
  · unfold SpecJBBRun.run
    rw [ha, hc]
    simp [isComposite]

/-- Witness for C4: a concrete composite run generates no tasks and its
trace is the properties write followed by one synchronous process. -/
theorem composite_run_single_process_witness :
    pyLookup "type" [("type", PyVal.str "composite")] =
      some (PyVal.str "composite")
    ∧ (SpecJBBRun.mk "specjbb2015.jar" [] "specjbb2015.props"
        [("path", PyVal.str "java"), ("options", PyVal.list [])]
        [("type", PyVal.str "composite")] defaultBackends
        defaultInjectors).generate_tasks 0 = .ok []
    ∧ (SpecJBBRun.mk "specjbb2015.jar" [] "specjbb2015.props"
        [("path", PyVal.str "java"), ("options", PyVal.list [])]
        [("type", PyVal.str "composite")] defaultBackends
        defaultInjectors).run 0 =
      .ok [Event.writeProps "specjbb2015.props" [("SPECtate", [])],
           Event.runSync [PyVal.str "java", PyVal.str "-jar",
             PyVal.str "specjbb2015.jar", PyVal.str "-m",
             PyVal.str "COMPOSITE", PyVal.str "-p",
             PyVal.str "specjbb2015.props"]] := by
  refine ⟨rfl, ?_, ?_⟩
  · exact (composite_run_single_process
      (SpecJBBRun.mk "specjbb2015.jar" [] "specjbb2015.props"
        [("path", PyVal.str "java"), ("options", PyVal.list [])]
        [("type", PyVal.str "composite")] defaultBackends defaultInjectors)
      0 [PyVal.str "java", PyVal.str "-jar", PyVal.str "specjbb2015.jar",
         PyVal.str "-m", PyVal.str "COMPOSITE", PyVal.str "-p",
         PyVal.str "specjbb2015.props"] rfl rfl).1
  · exact (composite_run_single_process
      (SpecJBBRun.mk "specjbb2015.jar" [] "specjbb2015.props"
        [("path", PyVal.str "java"), ("options", PyVal.list [])]
        [("type", PyVal.str "composite")] defaultBackends defaultInjectors)
      0 [PyVal.str "java", PyVal.str "-jar", PyVal.str "specjbb2015.jar",
         PyVal.str "-m", PyVal.str "COMPOSITE", PyVal.str "-p",
         PyVal.str "specjbb2015.props"] rfl rfl).2

/-- C7 (confirmed): every completed `run()` trace begins with the write
of the properties file at `props_file` — an INI document with exactly one
section literally named `SPECtate` whose pairs are the run's `props`
verbatim — and no later event of the trace is a properties write, so the
write completes before any process is launched. -/
theorem run_props_write_first (r : SpecJBBRun) (s : Nat) (evs : List Event)
    (h : r.run s = .ok evs) :
    ∃ rest,
      evs = Event.writeProps r.props_file [("SPECtate", r.props)] :: rest
      ∧ ∀ e ∈ rest, e.isWrite = false := by
  unfold SpecJBBRun.run at h
  split at h
  · exact absurd h (by simp)
  · split at h
    · exact absurd h (by simp)
    · split at h
      · injection h with h
        subst h
        refine ⟨_, rfl, ?_⟩
        intro e he
        simp only [List.mem_singleton] at he
        subst he
        rfl
      · split at h
        · exact absurd h (by simp)
        · split at h
          · exact absurd h (by simp)
          · injection h with h
            subst h
            refine ⟨_, rfl, ?_⟩
            intro e he
            simp at he
            rcases he with rfl | rfl | ⟨t, _, rfl⟩ | rfl <;> rfl

lemma injectorLoop_spec (r : SpecJBBRun) (gid : Nat) (iargs : List PyVal)
    (hia : r.injector_run_args = .ok iargs) :
    ∀ n s, injectorLoop r gid n s =
      .ok ((List.range n).map (fun j =>
        (⟨iargs ++ [.str (gFlag gid), .str (jFlag (s + j))]⟩ : TaskR)),
        s + n) := by
  intro n
  induction n with
  | zero => intro s; simp [injectorLoop]
  | succ n ih =>
    intro s
    unfold injectorLoop
    rw [hia, ih (s + 1)]
    simp only [List.range_succ_eq_map, List.map_cons, List.map_map,
      Except.ok.injEq, Prod.mk.injEq, List.cons.injEq]
    refine ⟨⟨?_, ?_⟩, by omega⟩
    · have h0 : s + 0 = s := by omega
      rw [h0]
    · apply List.map_congr_left
      intro j hj
      simp only [Function.comp]
      have hsj : s + 1 + j = s + (j + 1) := by omega
      rw [hsj]

lemma backendLoop_spec (r : SpecJBBRun) (i : Nat) (bargs iargs : List PyVal)
    (hba : r.backend_run_args = .ok bargs)
    (hia : r.injector_run_args = .ok iargs) :
    ∀ b s, backendLoop r i b s =
      .ok (genTasksSpec bargs iargs i b s, s + b * (i + 2)) := by
  intro b
  induction b with
  | zero => intro s; simp [backendLoop, genTasksSpec]
  | succ b ih =>
    intro s
    unfold backendLoop
    simp only [hba, injectorLoop_spec r s iargs hia i (s + 2), ih,
      genTasksSpec, Except.ok.injEq, Prod.mk.injEq, List.cons.injEq]
    have hc : s + 2 + i = s + i + 2 := by omega
    rw [hc]
    refine ⟨by simp, ?_⟩
    have hm : (b + 1) * (i + 2) = b * (i + 2) + (i + 2) := by
      rw [Nat.succ_mul]
    omega

lemma genTasksSpec_length (bargs iargs : List PyVal) (i : Nat) :
    ∀ b s, (genTasksSpec bargs iargs i b s).length = b + b * i := by
  intro b
  induction b with
  | zero => intro s; simp [genTasksSpec]
  | succ b ih =>
    intro s
    simp only [genTasksSpec, List.length_cons, List.length_append,
      List.length_map, List.length_range, ih (s + i + 2)]
    have hm : (b + 1) * i = b * i + i := by rw [Nat.succ_mul]
    omega

lemma getLast?_append_pair (xs : List PyVal) (a b : PyVal) :
    (xs ++ [a, b]).getLast? = some b := by
  have h : xs ++ [a, b] = (xs ++ [a]) ++ [b] := by simp
  rw [h, List.getLast?_concat]

lemma genTasksSpec_jvm_flags (bargs iargs : List PyVal) (i : Nat) :
    ∀ b s, (genTasksSpec bargs iargs i b s).map taskJvmArg =
      (jvmIds i b s).map fun n => some (PyVal.str (jFlag n)) := by
  intro b
  induction b with
  | zero => intro s; rfl
  | succ b ih =>
    intro s
    simp only [genTasksSpec, jvmIds, List.map_cons, List.map_append,
      List.map_map, ih (s + i + 2), List.cons.injEq]
    refine ⟨getLast?_append_pair _ _ _, ?_⟩
    congr 1
    apply List.map_congr_left
    intro j hj
    simp only [Function.comp]
    exact getLast?_append_pair _ _ _

lemma jvmIds_ge (i : Nat) : ∀ b s x, x ∈ jvmIds i b s → s + 1 ≤ x := by
  intro b
  induction b with
  | zero => intro s x hx; simp [jvmIds] at hx
  | succ b ih =>
    intro s x hx
    simp only [jvmIds, List.mem_cons, List.mem_append, List.mem_map,
      List.mem_range] at hx
    rcases hx with rfl | ⟨j, hj, rfl⟩ | hx
    · omega
    · omega
    · have := ih (s + i + 2) x hx
      omega

lemma jvmIds_nodup (i : Nat) : ∀ b s, (jvmIds i b s).Nodup := by
  intro b
  induction b with
  | zero => intro s; simp [jvmIds]
  | succ b ih =>
    intro s
    simp only [jvmIds]
    apply List.nodup_cons.mpr
    constructor
    · intro hx
      rcases List.mem_append.mp hx with hx1 | hx2
      · obtain ⟨j, hj, he⟩ := List.mem_map.mp hx1
        have hj2 := List.mem_range.mp hj
        omega
      · have := jvmIds_ge i b (s + i + 2) _ hx2
        omega
    · refine List.Nodup.append ?_ (ih _) ?_
      · exact List.Nodup.map (fun a b h => by omega) (List.nodup_range i)
      · intro x hx1 hx2
        obtain ⟨j, hj, rfl⟩ := List.mem_map.mp hx1
        have hj2 := List.mem_range.mp hj
        have := jvmIds_ge i b (s + i + 2) _ hx2
        omega

/-- C2 (confirmed): for a non-composite controller, task generation
produces exactly `genTasksSpec` — for each of the `backends.count`
iterations one backend task under a fresh group identifier and fresh JVM
identifier, immediately followed by `injectors.count` injector tasks with
fresh JVM identifiers and the same group identifier — whose length is
`B + B * I` and whose JVM identifiers (the `-J=` flags, in order) are the
pairwise-distinct identifiers `jvmIds`. -/
theorem generate_tasks_structure (r : SpecJBBRun) (s : Nat) (cty : String)
    (B I : Int) (bargs iargs : List PyVal)
    (hc : pyLookup "type" r.controller = some (PyVal.str cty))
    (hne : cty ≠ "composite")
    (hb : pyLookup "count" r.backends = some (PyVal.int B))
    (hi : pyLookup "count" r.injectors = some (PyVal.int I))
    (hba : r.backend_run_args = .ok bargs)
    (hia : r.injector_run_args = .ok iargs) :
    r.generate_tasks s = .ok (genTasksSpec bargs iargs I.toNat B.toNat s)
    ∧ (genTasksSpec bargs iargs I.toNat B.toNat s).length =
        B.toNat + B.toNat * I.toNat
    ∧ (genTasksSpec bargs iargs I.toNat B.toNat s).map taskJvmArg =
        ((jvmIds I.toNat B.toNat s).map fun n => some (PyVal.str (jFlag n)))
    ∧ (jvmIds I.toNat B.toNat s).Nodup := by
  refine ⟨?_, genTasksSpec_length bargs iargs I.toNat B.toNat s,
    genTasksSpec_jvm_flags bargs iargs I.toNat B.toNat s,
    jvmIds_nodup I.toNat B.toNat s⟩
  unfold SpecJBBRun.generate_tasks
  simp only [hc, hb, hi, isComposite, hne,
    backendLoop_spec r I.toNat bargs iargs hba hia, decide_False,
    Bool.false_eq_true, if_false]

/-- Witness for C2: a (B, I) = (2, 3) run with a non-composite controller
yields exactly 8 tasks, structured two groups of one backend plus three
injectors, with all 8 JVM identifiers distinct. -/
theorem generate_tasks_structure_witness :
    (SpecJBBRun.mk "j.jar" [] "p.props"
      [("path", PyVal.str "java"), ("options", PyVal.list [])]
      [("type", PyVal.str "multi")]
      [("count", PyVal.int 2), ("type", PyVal.str "backend"),
       ("options", PyVal.list []), ("jvm_opts", PyVal.list [])]
      [("count", PyVal.int 3), ("type", PyVal.str "txinjector"),
       ("options", PyVal.list []), ("jvm_opts", PyVal.list [])]
      ).generate_tasks 0 =
      .ok (genTasksSpec
        [PyVal.str "java", PyVal.str "-jar", PyVal.str "j.jar",
         PyVal.str "-m", PyVal.str "BACKEND", PyVal.str "-p",
         PyVal.str "p.props"]
        [PyVal.str "java", PyVal.str "-jar", PyVal.str "j.jar",
         PyVal.str "-m", PyVal.str "TXINJECTOR", PyVal.str "-p",
         PyVal.str "p.props"] 3 2 0)
    ∧ (genTasksSpec
        [PyVal.str "java", PyVal.str "-jar", PyVal.str "j.jar",
         PyVal.str "-m", PyVal.str "BACKEND", PyVal.str "-p",
         PyVal.str "p.props"]
        [PyVal.str "java", PyVal.str "-jar", PyVal.str "j.jar",
         PyVal.str "-m", PyVal.str "TXINJECTOR", PyVal.str "-p",
         PyVal.str "p.props"] 3 2 0).length = 8
    ∧ (jvmIds 3 2 0).Nodup := by
  have h := generate_tasks_structure
    (SpecJBBRun.mk "j.jar" [] "p.props"
      [("path", PyVal.str "java"), ("options", PyVal.list [])]
      [("type", PyVal.str "multi")]
      [("count", PyVal.int 2), ("type", PyVal.str "backend"),
       ("options", PyVal.list []), ("jvm_opts", PyVal.list [])]
      [("count", PyVal.int 3), ("type", PyVal.str "txinjector"),
       ("options", PyVal.list []), ("jvm_opts", PyVal.list [])])
    0 "multi" 2 3
    [PyVal.str "java", PyVal.str "-jar", PyVal.str "j.jar",
     PyVal.str "-m", PyVal.str "BACKEND", PyVal.str "-p",
     PyVal.str "p.props"]
    [PyVal.str "java", PyVal.str "-jar", PyVal.str "j.jar",
     PyVal.str "-m", PyVal.str "TXINJECTOR", PyVal.str "-p",
     PyVal.str "p.props"]
    rfl (by decide) rfl rfl rfl rfl
  exact ⟨h.1, h.2.1, h.2.2.2⟩

/-- Witness for C7: a concrete completed run's trace starts with the
`SPECtate` properties write and contains no later write. -/
theorem run_props_write_first_witness :
    ∃ rest,
      ([Event.writeProps "p2.props" [("SPECtate", [("k", PyVal.str "v")])],
        Event.runSync [PyVal.str "java", PyVal.str "-jar",
          PyVal.str "x.jar", PyVal.str "-m", PyVal.str "COMPOSITE",
          PyVal.str "-p", PyVal.str "p2.props"]] : List Event) =
      Event.writeProps "p2.props" [("SPECtate", [("k", PyVal.str "v")])]
        :: rest
      ∧ ∀ e ∈ rest, e.isWrite = false := by
  exact run_props_write_first
    (SpecJBBRun.mk "x.jar" [("k", PyVal.str "v")] "p2.props"
      [("path", PyVal.str "java"), ("options", PyVal.list [])]
      [("type", PyVal.str "composite")] defaultBackends defaultInjectors)
    0
    [Event.writeProps "p2.props" [("SPECtate", [("k", PyVal.str "v")])],
     Event.runSync [PyVal.str "java", PyVal.str "-jar", PyVal.str "x.jar",
       PyVal.str "-m", PyVal.str "COMPOSITE", PyVal.str "-p",
       PyVal.str "p2.props"]] rfl
